import Mathlib

/-!
Shallow embedding of the od-database metadata layer (`database.py`).

The SQLite-backed `Database` class is modelled as a pure state `DB`
(lists of rows in insertion order, mirroring rowid order), and each
method as a Lean function over that state.  Timestamps are modelled as
integers, averages as rationals (Python `/` is true division).
-/

/-- A row of the `Website` table: `(id, url, logged_ip, logged_useragent, last_modified)`. -/
structure Website where
  id : Nat
  url : String
  logged_ip : String
  logged_useragent : String
  last_modified : Int
deriving DecidableEq

/-- A row of the `CrawlServer` table. -/
structure CrawlServer where
  id : Nat
  url : String
  name : String
  slots : Nat
  token : String
deriving DecidableEq

/-- A raw row of the `TaskResult` table (column `server` holds the server id). -/
structure TaskResultRow where
  server : Nat
  website_id : Nat
  status_code : String
  file_count : Int
  start_time : Int
  end_time : Int
  indexed_time : Option Int
deriving DecidableEq

/-- A joined task result as constructed by `get_crawl_logs`
(the `crawl_server.database.TaskResult` value, `server_name` denormalized via the join). -/
structure TaskResult where
  status_code : String
  file_count : Int
  start_time : Int
  end_time : Int
  website_id : Nat
  indexed_time : Option Int
  server_name : String
deriving DecidableEq

/-- A search hit / scan document: the `_source` object carries a `website_id`
and, after enrichment, a `website_url`. -/
structure Hit where
  website_id : Nat
  website_url : Option String
deriving DecidableEq

/-- An external search-engine response page (`page["hits"]["hits"]`). -/
structure SearchPage where
  hits : List Hit
deriving DecidableEq

/-- One per-server entry of the mapping returned by `get_stats_by_server`. -/
structure ServerStats where
  file_count : Int
  time : Int
  task_count : Nat
  time_avg : Rat
  file_count_avg : Rat
deriving DecidableEq

/-- The whole database state.  Lists are in rowid (insertion) order;
the blacklist stores only the normalized url strings. -/
structure DB where
  websites : List Website
  blacklist : List String
  crawl_servers : List CrawlServer
  task_results : List TaskResultRow
deriving DecidableEq

/-- The empty database (fresh `init_script.sql` state). -/
def emptyDB : DB := { websites := [], blacklist := [], crawl_servers := [], task_results := [] }

deriving instance DecidableEq for Except

/-! ## URL parsing and SQLite string primitives -/

/-- Characters allowed in a URL scheme by `urllib.parse` (`scheme_chars`). -/
def schemeChar (c : Char) : Bool :=
  (('a' ≤ c && c ≤ 'z') || ('A' ≤ c && c ≤ 'Z') || ('0' ≤ c && c ≤ '9')
    || c == '+' || c == '-' || c == '.')

/-- ASCII lower-casing, as used by SQLite `LIKE` (only `A`-`Z` fold). -/
def asciiLower (c : Char) : Char :=
  if 'A' ≤ c ∧ c ≤ 'Z' then Char.ofNat (c.toNat + 32) else c

/-- The `scheme` and `netloc` components of a parsed URL. -/
structure ParsedUrl where
  scheme : String
  netloc : String
deriving DecidableEq

/-- Python `urllib.parse.urlparse`, restricted to the `scheme` and `netloc`
components used by `database.py`: split a leading `scheme:` when every
character before the first `:` is a scheme character, then read the netloc
after a leading `//` up to the next `/`, `?` or `#`; raise `ValueError`
("Invalid IPv6 URL") when the netloc has an unbalanced `[` or `]`. -/
def urlparse (url : String) : Except String ParsedUrl :=
  let cs := url.data
  let p :=
    match cs.findIdx? (fun c => c == ':') with
    | some i =>
      if 0 < i && (cs.take i).all schemeChar then
        ((cs.take i).map asciiLower, cs.drop (i + 1))
      else ([], cs)
    | none => ([], cs)
  match p.2 with
  | '/' :: '/' :: r =>
    let netloc := r.takeWhile (fun c => c != '/' && c != '?' && c != '#')
    if (netloc.contains '[' && !netloc.contains ']')
        || (netloc.contains ']' && !netloc.contains '[') then
      Except.error "Invalid IPv6 URL"
    else Except.ok { scheme := String.mk p.1, netloc := String.mk netloc }
  | _ => Except.ok { scheme := String.mk p.1, netloc := "" }

/-- The normalization `parsed_url.scheme + "://" + parsed_url.netloc` applied by
`add_blacklist_website` and `is_blacklisted`. -/
def normalizeParsed (p : ParsedUrl) : String :=
  p.scheme ++ "://" ++ p.netloc

/-- SQLite `LIKE` matching: first argument is the pattern, second the text.
`%` matches any sequence, `_` any single character, other characters match
ASCII-case-insensitively.  No ESCAPE clause. -/
def sqliteLike : List Char → List Char → Bool
  | [], ts => ts.isEmpty
  | '%' :: ps, ts => (ts.tails).any (fun ts' => sqliteLike ps ts')
  | '_' :: _, [] => false
  | '_' :: ps, _ :: ts => sqliteLike ps ts
  | _ :: _, [] => false
  | p :: ps, t :: ts => (asciiLower p == asciiLower t) && sqliteLike ps ts

/-- SQLite `substr(x, 0, z)`: characters of `x` at positions `1 .. z-1`
(position `0` lies before the first character, so only `z-1` characters are
returned). -/
def sqliteSubstr0 (x : String) (z : Nat) : String :=
  String.mk (x.data.take (z - 1))

/-! ## WebsiteRegistry operations -/

/-- The rowid that `LAST_INSERT_ROWID()` reports for a fresh insert: one more
than the largest existing id. -/
def nextWebsiteId (db : DB) : Nat :=
  (db.websites.map (fun w => w.id)).foldr max 0 + 1

/-- `insert_website`: inserts the row and returns the generated id
(`last_modified` defaults to the creation time `now`). -/
def insert_website (db : DB) (url logged_ip logged_useragent : String) (now : Int) :
    Nat × DB :=
  let i := nextWebsiteId db
  (i, { db with websites :=
        db.websites ++ [{ id := i, url := url, logged_ip := logged_ip,
                          logged_useragent := logged_useragent, last_modified := now }] })

/-- `get_website_by_url`: `SELECT ... FROM Website WHERE url=?` with `fetchone`
(first matching row in rowid order), or `None`. -/
def get_website_by_url (db : DB) (url : String) : Option Website :=
  db.websites.find? (fun w => w.url == url)

/-- `get_website_by_id`: `SELECT * FROM Website WHERE id=?` with `fetchone`. -/
def get_website_by_id (db : DB) (website_id : Nat) : Option Website :=
  db.websites.find? (fun w => w.id == website_id)

/-- `website_exists`: `SELECT id FROM Website WHERE url = substr(?, 0, length(url) + 1)`,
returning the first matching id or `None`. -/
def website_exists (db : DB) (url : String) : Option Nat :=
  (db.websites.find? (fun w => w.url == sqliteSubstr0 url (w.url.length + 1))).map
    (fun w => w.id)

/-- `get_websites_older`: ids of websites with `last_modified < now - delta`. -/
def get_websites_older (db : DB) (now delta : Int) : List Nat :=
  (db.websites.filter (fun w => w.last_modified < now - delta)).map (fun w => w.id)

/-- `delete_website`: `DELETE FROM Website WHERE id=?`.  Touches only the
`Website` table (no cascade; the connection never enables foreign keys). -/
def delete_website (db : DB) (website_id : Nat) : DB :=
  { db with websites := db.websites.filter (fun w => w.id ≠ website_id) }

/-- `get_all_websites`: the dict `{id: url}` built row by row
(later rows with the same id overwrite earlier ones, as in a Python dict). -/
def get_all_websites (db : DB) : Nat → Option String :=
  fun i => db.websites.foldl (fun acc w => if w.id == i then some w.url else acc) none

/-! ## SearchEnrichment operations -/

/-- The per-hit enrichment body shared by `join_website_on_search_result` and
`join_website_on_scan`: attach the registry url, or the `"[DELETED]"` sentinel. -/
def enrichHit (websites : Nat → Option String) (h : Hit) : Hit :=
  match websites h.website_id with
  | some u => { h with website_url := some u }
  | none => { h with website_url := some "[DELETED]" }

/-- `join_website_on_search_result`: enrich every hit of the page. -/
def join_website_on_search_result (db : DB) (page : SearchPage) : SearchPage :=
  { page with hits := page.hits.map (enrichHit (get_all_websites db)) }

/-- `join_website_on_scan`: the generator yielding each enriched doc in order. -/
def join_website_on_scan (db : DB) (docs : List Hit) : List Hit :=
  docs.map (enrichHit (get_all_websites db))

/-- `join_website_on_stats`: replace the first slot of every
`website_scatter` pair with `websites.get(id, "[DELETED]")`. -/
def join_website_on_stats (db : DB) (scatter : List (Nat × Int)) : List (String × Int) :=
  scatter.map (fun p => ((get_all_websites db p.1).getD "[DELETED]", p.2))

/-! ## BlacklistPolicy operations -/

/-- `add_blacklist_website`: parse the url (a `ValueError` from `urlparse`
propagates before any SQL runs), normalize to `scheme://netloc`, insert. -/
def add_blacklist_website (db : DB) (url : String) : Except String DB :=
  match urlparse url with
  | Except.error e => Except.error e
  | Except.ok p =>
    Except.ok { db with blacklist := db.blacklist ++ [normalizeParsed p] }

/-- `is_blacklisted`: normalize the candidate and run
`SELECT id FROM BlacklistedWebsite WHERE url LIKE ? LIMIT 1` — the stored
column is the text, the normalized candidate is the `LIKE` pattern. -/
def is_blacklisted (db : DB) (url : String) : Except String Bool :=
  match urlparse url with
  | Except.error e => Except.error e
  | Except.ok p =>
    Except.ok (db.blacklist.any (fun stored =>
      sqliteLike (normalizeParsed p).data stored.data))

/-- Modelled from the spec: the matching direction claimed by the spec for
`is_blacklisted`, in which wildcard characters appearing in the STORED value
are interpreted as SQL-style wildcards (the stored entry is the `LIKE`
pattern and the normalized candidate the text). -/
def is_blacklisted_claimed (db : DB) (url : String) : Except String Bool :=
  match urlparse url with
  | Except.error e => Except.error e
  | Except.ok p =>
    Except.ok (db.blacklist.any (fun stored =>
      sqliteLike stored.data (normalizeParsed p).data))

/-! ## TaskResultLog operations -/

/-- The joined `TaskResult` value built by `get_crawl_logs` from a raw row and
the joined server's name. -/
def mkTaskResult (row : TaskResultRow) (name : String) : TaskResult :=
  { status_code := row.status_code, file_count := row.file_count,
    start_time := row.start_time, end_time := row.end_time,
    website_id := row.website_id, indexed_time := row.indexed_time,
    server_name := name }

/-- The inner join `TaskResult INNER JOIN CrawlServer S ON TaskResult.server = S.id`:
one output row per matching (task row, server) pair. -/
def crawlLogsJoin (db : DB) : List TaskResult :=
  db.task_results.flatMap (fun row =>
    (db.crawl_servers.filter (fun s => s.id == row.server)).map
      (fun s => mkTaskResult row s.name))

/-- The comparator of `ORDER BY end_time DESC`: `a` may come before `b`
when `b.end_time ≤ a.end_time`. -/
def taskLe (a b : TaskResult) : Prop := b.end_time ≤ a.end_time

instance : DecidableRel taskLe :=
  fun a b => inferInstanceAs (Decidable (b.end_time ≤ a.end_time))

instance : IsTotal TaskResult taskLe := ⟨fun a b => le_total b.end_time a.end_time⟩

instance : IsTrans TaskResult taskLe := ⟨fun _ _ _ hab hbc => le_trans hbc hab⟩

/-- `get_crawl_logs`: the inner-joined rows, `ORDER BY end_time DESC`
(modelled as a sort of the join by descending `end_time`). -/
def get_crawl_logs (db : DB) : List TaskResult :=
  (crawlLogsJoin db).insertionSort taskLe

/-- The per-name aggregate entry written by one iteration of
`get_stats_by_server`'s loop. -/
def mkStats (task_results : List TaskResult) (name : String) : ServerStats :=
  let matching := task_results.filter (fun r => r.server_name == name)
  let fc : Int := (matching.map (fun r => r.file_count)).sum
  let tm : Int := (matching.map (fun r => r.end_time - r.start_time)).sum
  { file_count := fc,
    time := tm,
    task_count := matching.length,
    time_avg := (tm : Rat) / (matching.length : Rat),
    file_count_avg := (fc : Rat) / (matching.length : Rat) }

/-- One iteration of `get_stats_by_server`'s loop: count the results whose
`server_name` equals this server's name and, when positive, (over)write the
dict entry at that name. -/
def statsStep (task_results : List TaskResult) (stats : String → Option ServerStats)
    (server : CrawlServer) : String → Option ServerStats :=
  if 0 < (task_results.filter (fun r => r.server_name == server.name)).length then
    fun n => if n == server.name then some (mkStats task_results server.name) else stats n
  else stats

/-- `get_stats_by_server`: fetch the joined logs once, then loop over the
registered servers building the name-keyed dict. -/
def get_stats_by_server (db : DB) : String → Option ServerStats :=
  db.crawl_servers.foldl (statsStep (get_crawl_logs db)) (fun _ => none)

/-! ## Helper lemmas -/

/-- The SQL predicate `url = substr(?, 0, length(url) + 1)` holds exactly when the
stored url is a string prefix of the candidate. -/
theorem substr_check_iff (s url : String) :
    (s == sqliteSubstr0 url (s.length + 1)) = true ↔ ∃ t : String, s ++ t = url := by
  rw [beq_iff_eq]
  constructor
  · intro h
    have hd : s.data = url.data.take s.data.length := by
      have := congrArg String.data h
      simpa [sqliteSubstr0] using this
    have hp : s.data <+: url.data := List.prefix_iff_eq_take.mpr hd
    obtain ⟨t, ht⟩ := hp
    exact ⟨String.mk t, String.ext (by simpa [String.data_append] using ht)⟩
  · rintro ⟨t, rfl⟩
    have hp : s.data <+: (s ++ t).data := ⟨t.data, by simp [String.data_append]⟩
    have := List.prefix_iff_eq_take.mp hp
    exact String.ext (by simp [sqliteSubstr0])

/-- Every member is bounded by the `foldr max 0` of its list. -/
theorem le_foldr_max (l : List Nat) (x : Nat) (h : x ∈ l) : x ≤ l.foldr max 0 := by
  induction l with
  | nil => cases h
  | cons a as ih =>
    rcases List.mem_cons.mp h with h | h
    · subst h; exact le_max_left _ _
    · exact le_trans (ih h) (le_max_right _ _)

/-- `enrichHit` written with `Option.getD`. -/
theorem enrichHit_eq (websites : Nat → Option String) :
    enrichHit websites = fun h =>
      { h with website_url := some ((websites h.website_id).getD "[DELETED]") } := by
  funext h
  unfold enrichHit
  cases websites h.website_id <;> simp

/-! ## Claims -/

/-- Claim C1: `website_exists` returns a non-null id exactly when some stored
website's url is a lexicographic string prefix of the candidate (including
exact equality), and the returned id is the id of such a stored website;
the comparison is raw string prefix, not path-segment-aware. -/
theorem website_exists_prefix_correct (db : DB) (url : String) :
    ((website_exists db url).isSome ↔
      ∃ w ∈ db.websites, ∃ t : String, w.url ++ t = url) ∧
    (∀ i, website_exists db url = some i →
      ∃ w ∈ db.websites, w.id = i ∧ ∃ t : String, w.url ++ t = url) := by
  constructor
  · rw [website_exists, Option.isSome_map', List.find?_isSome]
    constructor
    · rintro ⟨w, hw, hcheck⟩
      exact ⟨w, hw, (substr_check_iff w.url url).mp hcheck⟩
    · rintro ⟨w, hw, ht⟩
      exact ⟨w, hw, (substr_check_iff w.url url).mpr ht⟩
  · intro i hi
    rw [website_exists, Option.map_eq_some'] at hi
    obtain ⟨w, hfind, hid⟩ := hi
    have hcheck := List.find?_some hfind
    exact ⟨w, List.mem_of_find?_eq_some hfind, hid,
      (substr_check_iff w.url url).mp hcheck⟩

/-- Example store for the C1 witness: one website rooted at `http://example.com/a`. -/
def dbC1 : DB :=
  { emptyDB with websites := [{ id := 1, url := "http://example.com/a",
                                logged_ip := "ip", logged_useragent := "ua",
                                last_modified := 0 }] }

/-- Witness for C1: the stored url `http://example.com/a` makes
`website_exists` return its id on the candidate `http://example.com/abc`. -/
theorem website_exists_prefix_correct_witness :
    website_exists dbC1 "http://example.com/abc" = some 1 ∧
    ∃ w ∈ dbC1.websites, w.id = 1 ∧
      ∃ t : String, w.url ++ t = "http://example.com/abc" := by
  refine ⟨by decide, ?_⟩
  exact (website_exists_prefix_correct dbC1 "http://example.com/abc").2 1 (by decide)

/-- Claim C3: the three enrichment functions keep the cardinality of their
input and substitute, element by element, the registry url of a present
`website_id` or the literal sentinel `"[DELETED]"` for an absent one; they
are total, whatever the number of unresolved ids. -/
theorem search_enrichment_total (db : DB) (page : SearchPage) (docs : List Hit)
    (scatter : List (Nat × Int)) :
    ((join_website_on_search_result db page).hits.length = page.hits.length) ∧
    (∀ k : Nat, ((join_website_on_search_result db page).hits)[k]? =
      (page.hits[k]?).map (fun h => { h with
        website_url := some ((get_all_websites db h.website_id).getD "[DELETED]") })) ∧
    ((join_website_on_scan db docs).length = docs.length) ∧
    (∀ k : Nat, (join_website_on_scan db docs)[k]? =
      (docs[k]?).map (fun h => { h with
        website_url := some ((get_all_websites db h.website_id).getD "[DELETED]") })) ∧
    ((join_website_on_stats db scatter).length = scatter.length) ∧
    (∀ k : Nat, (join_website_on_stats db scatter)[k]? =
      (scatter[k]?).map (fun p =>
        ((get_all_websites db p.1).getD "[DELETED]", p.2))) := by
  refine ⟨by simp [join_website_on_search_result], ?_,
    by simp [join_website_on_scan], ?_,
    by simp [join_website_on_stats], ?_⟩
  · intro k
    simp [join_website_on_search_result, List.getElem?_map, enrichHit_eq]
  · intro k
    simp [join_website_on_scan, List.getElem?_map, enrichHit_eq]
  · intro k
    simp [join_website_on_stats, List.getElem?_map]

/-- Claim C7: `get_websites_older` returns exactly the ids with
`last_modified` strictly below `now - delta`; a website sitting exactly on
the boundary is excluded. -/
theorem get_websites_older_strict (db : DB) (now delta : Int)
    (hids : (db.websites.map (fun w => w.id)).Nodup) :
    (∀ i, i ∈ get_websites_older db now delta ↔
      ∃ w ∈ db.websites, w.id = i ∧ w.last_modified < now - delta) ∧
    (∀ w ∈ db.websites, w.last_modified = now - delta →
      w.id ∉ get_websites_older db now delta) := by
  constructor
  · intro i
    simp only [get_websites_older, List.mem_map, List.mem_filter]
    constructor
    · rintro ⟨w, ⟨hw, hlt⟩, rfl⟩
      exact ⟨w, hw, rfl, by simpa using hlt⟩
    · rintro ⟨w, hw, rfl, hlt⟩
      exact ⟨w, ⟨hw, by simpa using hlt⟩, rfl⟩
  · intro w hw heq hmem
    simp only [get_websites_older, List.mem_map, List.mem_filter] at hmem
    obtain ⟨w', ⟨hw', hlt⟩, hid⟩ := hmem
    have : w' = w := List.inj_on_of_nodup_map hids hw' hw hid
    subst this
    rw [heq] at hlt
    simp at hlt

/-- Example store for the C7 witness: one boundary website and one older one. -/
def dbC7 : DB :=
  { emptyDB with websites :=
      [{ id := 1, url := "http://a", logged_ip := "i", logged_useragent := "u",
         last_modified := 7 },
       { id := 2, url := "http://b", logged_ip := "i", logged_useragent := "u",
         last_modified := 6 }] }

/-- The boundary website of `dbC7`. -/
def siteC7a : Website :=
  { id := 1, url := "http://a", logged_ip := "i", logged_useragent := "u", last_modified := 7 }

/-- Witness for C7: with `now = 10`, `delta = 3`, the website last modified at
`6` is returned and the one exactly at the boundary `7` is excluded. -/
theorem get_websites_older_strict_witness :
    (2 ∈ get_websites_older dbC7 10 3 ↔
      ∃ w ∈ dbC7.websites, w.id = 2 ∧ w.last_modified < 10 - 3) ∧
    1 ∉ get_websites_older dbC7 10 3 := by
  have h := get_websites_older_strict dbC7 10 3 (by decide)
  exact ⟨h.1 2, h.2 siteC7a (by decide) (by decide)⟩

/-- Claim C8: an unparseable URL makes `add_blacklist_website` surface the
parse error immediately; the insert is never attempted, so no state results. -/
theorem add_blacklist_malformed (db : DB) (url e : String)
    (h : urlparse url = Except.error e) :
    add_blacklist_website db url = Except.error e ∧
    ∀ db' : DB, add_blacklist_website db url ≠ Except.ok db' := by
  simp [add_blacklist_website, h]

/-- Witness for C8: `"http://[::1"` (unbalanced bracket) is rejected by
`urlparse` and `add_blacklist_website` surfaces the error on the empty store. -/
theorem add_blacklist_malformed_witness :
    urlparse "http://[::1" = Except.error "Invalid IPv6 URL" ∧
    add_blacklist_website emptyDB "http://[::1" =
      Except.error "Invalid IPv6 URL" := by
  refine ⟨by decide, ?_⟩
  exact (add_blacklist_malformed emptyDB "http://[::1" "Invalid IPv6 URL" (by decide)).1

/-- Example state for the C5 counterexample: one website, one crawl server
and one task result referencing both. -/
def dbC5 : DB :=
  { websites := [{ id := 1, url := "http://a.com", logged_ip := "ip",
                   logged_useragent := "ua", last_modified := 0 }],
    blacklist := [],
    crawl_servers := [{ id := 1, url := "http://s1", name := "s1", slots := 2, token := "t" }],
    task_results := [{ server := 1, website_id := 1, status_code := "200",
                       file_count := 10, start_time := 0, end_time := 5,
                       indexed_time := none }] }

/-- Counterexample to claim C5 as stated: after deleting the only website,
its task-result row is NOT excluded from `get_crawl_logs` — the inner join is
on `CrawlServer`, not on `Website`, so the row (still carrying the dangling
`website_id = 1`) remains in the view. -/
theorem delete_website_row_not_excluded :
    (delete_website dbC5 1).websites = [] ∧
    get_crawl_logs (delete_website dbC5 1) =
      [{ status_code := "200", file_count := 10, start_time := 0, end_time := 5,
         website_id := 1, indexed_time := none, server_name := "s1" }] := by decide

/-- Claim C5 (amended): deleting a Website causes no error on subsequent
`get_crawl_logs` / `get_stats_by_server` calls, and leaves both views exactly
unchanged — rows referencing the deleted website stay in the inner-joined
view (with their dangling `website_id`), because the join is with
`CrawlServer` only. -/
theorem delete_website_views_unchanged (db : DB) (website_id : Nat) :
    get_crawl_logs (delete_website db website_id) = get_crawl_logs db ∧
    get_stats_by_server (delete_website db website_id) = get_stats_by_server db :=
  ⟨rfl, rfl⟩

/-- Example state for the C9 counterexample: the same url inserted twice. -/
def dbC9 : DB :=
  (insert_website (insert_website emptyDB "http://a.com" "ip1" "ua1" 1).2
    "http://a.com" "ip2" "ua2" 2).2

/-- The id returned by the second insert in `dbC9`. -/
def idC9 : Nat :=
  (insert_website (insert_website emptyDB "http://a.com" "ip1" "ua1" 1).2
    "http://a.com" "ip2" "ua2" 2).1

/-- Counterexample to claim C9 as stated: after inserting a second website
with a url already stored, `get_website_by_id` of the new id returns the new
row while `get_website_by_url` of its url returns the FIRST row with that
url, so the two lookups disagree. -/
theorem get_by_id_url_disagree :
    get_website_by_id dbC9 idC9 =
      some { id := 2, url := "http://a.com", logged_ip := "ip2",
             logged_useragent := "ua2", last_modified := 2 } ∧
    get_website_by_url dbC9 "http://a.com" =
      some { id := 1, url := "http://a.com", logged_ip := "ip1",
             logged_useragent := "ua1", last_modified := 1 } ∧
    get_website_by_id dbC9 idC9 ≠ get_website_by_url dbC9 "http://a.com" := by
  decide

/-- Claim C9 (amended): for a Website inserted via `insert_website` whose url
is not already stored, `get_website_by_id` of the returned id and
`get_website_by_url` of the url return the same record — the same id, url,
logged_ip, logged_useragent and last_modified. -/
theorem get_by_id_url_agree (db : DB) (url logged_ip logged_useragent : String)
    (now : Int) (hfresh : ∀ w ∈ db.websites, w.url ≠ url) :
    get_website_by_id (insert_website db url logged_ip logged_useragent now).2
        (insert_website db url logged_ip logged_useragent now).1 =
      some { id := (insert_website db url logged_ip logged_useragent now).1,
             url := url, logged_ip := logged_ip,
             logged_useragent := logged_useragent, last_modified := now } ∧
    get_website_by_url (insert_website db url logged_ip logged_useragent now).2 url =
      some { id := (insert_website db url logged_ip logged_useragent now).1,
             url := url, logged_ip := logged_ip,
             logged_useragent := logged_useragent, last_modified := now } := by
  have hid : ∀ x ∈ db.websites, ¬ (x.id == nextWebsiteId db) = true := by
    intro x hx hbeq
    have hle : x.id ≤ (db.websites.map (fun w => w.id)).foldr max 0 :=
      le_foldr_max _ _ (List.mem_map.mpr ⟨x, hx, rfl⟩)
    have heq := beq_iff_eq.mp hbeq
    rw [nextWebsiteId] at heq
    omega
  have hurl : ∀ x ∈ db.websites, ¬ (x.url == url) = true := by
    intro x hx hbeq
    exact hfresh x hx (beq_iff_eq.mp hbeq)
  constructor
  · simp only [get_website_by_id, insert_website]
    rw [List.find?_append, List.find?_eq_none.mpr hid]
    simp
  · simp only [get_website_by_url, insert_website]
    rw [List.find?_append, List.find?_eq_none.mpr hurl]
    simp

/-- Witness for the amended C9: inserting `http://a.com` into the empty
store makes both lookups return the same record. -/
theorem get_by_id_url_agree_witness :
    get_website_by_id (insert_website emptyDB "http://a.com" "ip" "ua" 5).2
        (insert_website emptyDB "http://a.com" "ip" "ua" 5).1 =
      some { id := 1, url := "http://a.com", logged_ip := "ip",
             logged_useragent := "ua", last_modified := 5 } ∧
    get_website_by_url (insert_website emptyDB "http://a.com" "ip" "ua" 5).2
        "http://a.com" =
      some { id := 1, url := "http://a.com", logged_ip := "ip",
             logged_useragent := "ua", last_modified := 5 } := by
  exact get_by_id_url_agree emptyDB "http://a.com" "ip" "ua" 5 (by decide)

/-- Example blacklist state for the C4 counterexample: the normalized form of
`http://e%.com/path`, a stored entry containing a wildcard character. -/
def dbC4 : DB := { emptyDB with blacklist := ["http://e%.com"] }

/-- Counterexample to claim C4 as stated: in `WHERE url LIKE ?` the NORMALIZED
CANDIDATE is the `LIKE` pattern and the stored value is the matched text, so a
wildcard in the STORED entry is literal.  After `add("http://e%.com/path")`
the claim's reading (stored wildcards interpreted) would blacklist
`http://evil.com/x`, but the code does not. -/
theorem is_blacklisted_stored_wildcard_literal :
    add_blacklist_website emptyDB "http://e%.com/path" = Except.ok dbC4 ∧
    is_blacklisted_claimed dbC4 "http://evil.com/x" = Except.ok true ∧
    is_blacklisted dbC4 "http://evil.com/x" = Except.ok false := by decide

/-- Claim C4 (amended): `is_blacklisted` normalizes the candidate to
`scheme://authority` and returns true iff some stored entry matches it under
SQL `LIKE` with the NORMALIZED CANDIDATE as the pattern — wildcard characters
in the candidate are interpreted, stored entries are matched as literal text
(ASCII-case-insensitively); in particular, after `add("http://evil.com/path")`
the candidate `http://evil.com/anything` is blacklisted and
`http://notevil.com/` is not. -/
theorem is_blacklisted_like_semantics (db : DB) (url : String) (p : ParsedUrl)
    (hp : urlparse url = Except.ok p) :
    (is_blacklisted db url = Except.ok true ↔
      ∃ stored ∈ db.blacklist,
        sqliteLike (normalizeParsed p).data stored.data = true) ∧
    ((add_blacklist_website emptyDB "http://evil.com/path").bind
      (fun d => is_blacklisted d "http://evil.com/anything") = Except.ok true) ∧
    ((add_blacklist_website emptyDB "http://evil.com/path").bind
      (fun d => is_blacklisted d "http://notevil.com/") = Except.ok false) := by
  refine ⟨?_, by decide, by decide⟩
  rw [is_blacklisted, hp]
  simp only [Except.ok.injEq, List.any_eq_true]

/-- Blacklist state for the C4 witness. -/
def dbC4w : DB := { emptyDB with blacklist := ["http://evil.com"] }

/-- Witness for the amended C4: with `http://evil.com` stored, the candidate
`http://evil.com/x` (normalized to `http://evil.com`) is blacklisted. -/
theorem is_blacklisted_like_semantics_witness :
    is_blacklisted dbC4w "http://evil.com/x" = Except.ok true := by
  have h := is_blacklisted_like_semantics dbC4w "http://evil.com/x"
    { scheme := "http", netloc := "evil.com" } (by decide)
  exact h.1.mpr ⟨"http://evil.com", by decide, by decide⟩

/-- Claim C6: `get_crawl_logs` returns exactly the task-result rows whose
`server` resolves to a registered CrawlServer (inner join semantics: every
output element arises from such a row, annotated with the joined server's
name, and every resolvable row appears; unresolvable rows are dropped),
ordered by `end_time` descending. -/
theorem get_crawl_logs_inner_join_sorted (db : DB) :
    List.Pairwise (fun a b => b.end_time ≤ a.end_time) (get_crawl_logs db) ∧
    (get_crawl_logs db).Perm (crawlLogsJoin db) ∧
    (∀ r ∈ get_crawl_logs db, ∃ row ∈ db.task_results, ∃ s ∈ db.crawl_servers,
      s.id = row.server ∧ r = mkTaskResult row s.name) ∧
    (∀ row ∈ db.task_results, ∀ s ∈ db.crawl_servers, s.id = row.server →
      mkTaskResult row s.name ∈ get_crawl_logs db) := by
  refine ⟨?_, ?_, ?_, ?_⟩
  · exact List.sorted_insertionSort taskLe (crawlLogsJoin db)
  · exact List.perm_insertionSort taskLe (crawlLogsJoin db)
  · intro r hr
    rw [get_crawl_logs, List.mem_insertionSort, crawlLogsJoin, List.mem_flatMap] at hr
    obtain ⟨row, hrow, hmem⟩ := hr
    rw [List.mem_map] at hmem
    obtain ⟨s, hs, hrs⟩ := hmem
    rw [List.mem_filter] at hs
    exact ⟨row, hrow, s, hs.1, beq_iff_eq.mp hs.2, hrs.symm⟩
  · intro row hrow s hs hsid
    rw [get_crawl_logs, List.mem_insertionSort, crawlLogsJoin, List.mem_flatMap]
    exact ⟨row, hrow,
      List.mem_map.mpr ⟨s, List.mem_filter.mpr ⟨hs, beq_iff_eq.mpr hsid⟩, rfl⟩⟩

/-- Example state for the C6 witness: one registered server and two task
rows, one of which references an unregistered server. -/
def dbC6 : DB :=
  { websites := [], blacklist := [],
    crawl_servers := [{ id := 1, url := "http://s1", name := "alpha",
                        slots := 2, token := "t" }],
    task_results := [{ server := 1, website_id := 3, status_code := "200",
                       file_count := 4, start_time := 0, end_time := 9,
                       indexed_time := none },
                     { server := 2, website_id := 4, status_code := "200",
                       file_count := 5, start_time := 0, end_time := 20,
                       indexed_time := none }] }

/-- The resolvable task row of `dbC6`. -/
def rowC6 : TaskResultRow :=
  { server := 1, website_id := 3, status_code := "200", file_count := 4,
    start_time := 0, end_time := 9, indexed_time := none }

/-- The registered server of `dbC6`. -/
def srvC6 : CrawlServer :=
  { id := 1, url := "http://s1", name := "alpha", slots := 2, token := "t" }

/-- Witness for C6: the resolvable row appears in the joined view annotated
with its server's name, and the view is sorted by `end_time` descending. -/
theorem get_crawl_logs_inner_join_sorted_witness :
    mkTaskResult rowC6 "alpha" ∈ get_crawl_logs dbC6 ∧
    List.Pairwise (fun a b => b.end_time ≤ a.end_time) (get_crawl_logs dbC6) := by
  have h := get_crawl_logs_inner_join_sorted dbC6
  exact ⟨h.2.2.2 rowC6 (by decide) srvC6 (by decide) (by decide), h.1⟩

/-- Reading the dict after one loop iteration of `get_stats_by_server`:
the entry at `n` is freshly written iff this server is named `n` and at
least one joined result matches that name. -/
theorem statsStep_read (results : List TaskResult) (acc : String → Option ServerStats)
    (s : CrawlServer) (n : String) :
    (statsStep results acc s) n =
      if s.name = n ∧
          0 < (results.filter (fun r => r.server_name == n)).length then
        some (mkStats results n)
      else acc n := by
  rw [statsStep]
  by_cases hsn : s.name = n
  · subst hsn
    by_cases hcnt : 0 < (results.filter (fun r => r.server_name == s.name)).length
    · simp [hcnt]
    · simp [hcnt]
  · by_cases hcnt : 0 < (results.filter (fun r => r.server_name == s.name)).length
    · simp [hcnt, hsn, Ne.symm hsn]
    · simp [hcnt, hsn]

/-- The dict built by `get_stats_by_server`'s whole loop, read at name `n`:
an entry is present exactly when some iterated server is named `n` and at
least one joined result matches that name, and then it holds the aggregates
for `n`. -/
theorem statsStep_foldl (results : List TaskResult) (servers : List CrawlServer)
    (acc : String → Option ServerStats) (n : String) :
    (servers.foldl (statsStep results) acc) n =
      if (∃ s ∈ servers, s.name = n) ∧
          0 < (results.filter (fun r => r.server_name == n)).length then
        some (mkStats results n)
      else acc n := by
  induction servers generalizing acc with
  | nil => simp
  | cons s ss ih =>
    rw [List.foldl_cons, ih, statsStep_read]
    by_cases hcnt : 0 < (results.filter (fun r => r.server_name == n)).length
    · by_cases hss : ∃ x ∈ ss, x.name = n
      · simp [hss, hcnt, List.exists_mem_cons_iff]
      · by_cases hsn : s.name = n
        · simp [hss, hcnt, hsn, List.exists_mem_cons_iff]
        · simp [hss, hcnt, hsn, List.exists_mem_cons_iff]
    · simp [hcnt]

/-- Claim C2: `get_stats_by_server` has an entry exactly for names carried by
a registered server with at least one matching joined TaskResult (zero-result
servers are omitted, not reported as zero), and the entry aggregates the
matching results: `task_count` is their number, `file_count` the sum of file
counts, `time` the sum of `end_time - start_time`, and the averages are the
rational (true-division) quotients by `task_count`. -/
theorem get_stats_by_server_aggregates (db : DB) (n : String) :
    get_stats_by_server db n =
      if (∃ s ∈ db.crawl_servers, s.name = n) ∧
          0 < ((get_crawl_logs db).filter (fun r => r.server_name == n)).length then
        some { file_count :=
                 (((get_crawl_logs db).filter (fun r => r.server_name == n)).map
                   (fun r => r.file_count)).sum,
               time :=
                 (((get_crawl_logs db).filter (fun r => r.server_name == n)).map
                   (fun r => r.end_time - r.start_time)).sum,
               task_count :=
                 ((get_crawl_logs db).filter (fun r => r.server_name == n)).length,
               time_avg :=
                 (((((get_crawl_logs db).filter (fun r => r.server_name == n)).map
                    (fun r => r.end_time - r.start_time)).sum : Int) : Rat) /
                  (((get_crawl_logs db).filter (fun r => r.server_name == n)).length : Rat),
               file_count_avg :=
                 (((((get_crawl_logs db).filter (fun r => r.server_name == n)).map
                    (fun r => r.file_count)).sum : Int) : Rat) /
                  (((get_crawl_logs db).filter (fun r => r.server_name == n)).length : Rat) }
      else none := by
  rw [get_stats_by_server, statsStep_foldl]
  rfl

/-- A joined row whose server is registered lands in `get_crawl_logs`,
annotated with that server's name. -/
theorem mem_get_crawl_logs_of_join (db : DB) (row : TaskResultRow) (s : CrawlServer)
    (hrow : row ∈ db.task_results) (hs : s ∈ db.crawl_servers)
    (hid : s.id = row.server) :
    mkTaskResult row s.name ∈ get_crawl_logs db := by
  rw [get_crawl_logs, List.mem_insertionSort, crawlLogsJoin, List.mem_flatMap]
  exact ⟨row, hrow,
    List.mem_map.mpr ⟨s, List.mem_filter.mpr ⟨hs, beq_iff_eq.mpr hid⟩, rfl⟩⟩

/-- Claim C10: `get_stats_by_server` keys its mapping by server NAME — for
two distinct registered servers sharing a name, both names resolve to the
same single entry, that entry counts and sums every joined result annotated
with the shared name, and the joined results of both servers are among
those aggregated (merged into one entry rather than reported per server). -/
theorem stats_same_name_merged (db : DB) (s1 s2 : CrawlServer)
    (h1 : s1 ∈ db.crawl_servers) (h2 : s2 ∈ db.crawl_servers)
    (_hid : s1.id ≠ s2.id) (hname : s1.name = s2.name)
    (row1 row2 : TaskResultRow)
    (hr1 : row1 ∈ db.task_results) (hr2 : row2 ∈ db.task_results)
    (hs1 : row1.server = s1.id) (hs2 : row2.server = s2.id) :
    get_stats_by_server db s1.name = some (mkStats (get_crawl_logs db) s1.name) ∧
    get_stats_by_server db s2.name = some (mkStats (get_crawl_logs db) s1.name) ∧
    (mkStats (get_crawl_logs db) s1.name).task_count =
      ((get_crawl_logs db).filter (fun r => r.server_name == s1.name)).length ∧
    (mkStats (get_crawl_logs db) s1.name).file_count =
      (((get_crawl_logs db).filter (fun r => r.server_name == s1.name)).map
        (fun r => r.file_count)).sum ∧
    mkTaskResult row1 s1.name ∈
      (get_crawl_logs db).filter (fun r => r.server_name == s1.name) ∧
    mkTaskResult row2 s2.name ∈
      (get_crawl_logs db).filter (fun r => r.server_name == s1.name) := by
  have hm1 : mkTaskResult row1 s1.name ∈ get_crawl_logs db :=
    mem_get_crawl_logs_of_join db row1 s1 hr1 h1 hs1.symm
  have hm2 : mkTaskResult row2 s2.name ∈ get_crawl_logs db :=
    mem_get_crawl_logs_of_join db row2 s2 hr2 h2 hs2.symm
  have hf1 : mkTaskResult row1 s1.name ∈
      (get_crawl_logs db).filter (fun r => r.server_name == s1.name) :=
    List.mem_filter.mpr ⟨hm1, by simp [mkTaskResult]⟩
  have hf2 : mkTaskResult row2 s2.name ∈
      (get_crawl_logs db).filter (fun r => r.server_name == s1.name) :=
    List.mem_filter.mpr ⟨hm2, by simp [mkTaskResult, hname]⟩
  have hcnt : 0 <
      ((get_crawl_logs db).filter (fun r => r.server_name == s1.name)).length :=
    List.length_pos.mpr (fun hnil => by rw [hnil] at hf1; cases hf1)
  have hstats1 : get_stats_by_server db s1.name =
      some (mkStats (get_crawl_logs db) s1.name) := by
    rw [get_stats_by_server, statsStep_foldl, if_pos ⟨⟨s1, h1, rfl⟩, hcnt⟩]
  have hstats2 : get_stats_by_server db s2.name =
      some (mkStats (get_crawl_logs db) s1.name) := by
    rw [← hname]
    exact hstats1
  exact ⟨hstats1, hstats2, rfl, rfl, hf1, hf2⟩

/-- Example state for the C10 witness: two distinct servers both named `s`,
each with one task result. -/
def dbC10 : DB :=
  { websites := [], blacklist := [],
    crawl_servers := [{ id := 1, url := "http://s1", name := "s", slots := 2,
                        token := "t1" },
                      { id := 2, url := "http://s2", name := "s", slots := 2,
                        token := "t2" }],
    task_results := [{ server := 1, website_id := 7, status_code := "200",
                       file_count := 10, start_time := 0, end_time := 5,
                       indexed_time := none },
                     { server := 2, website_id := 8, status_code := "200",
                       file_count := 20, start_time := 0, end_time := 15,
                       indexed_time := none }] }

/-- First server of `dbC10`. -/
def srvC10a : CrawlServer :=
  { id := 1, url := "http://s1", name := "s", slots := 2, token := "t1" }

/-- Second server of `dbC10`, same name as the first. -/
def srvC10b : CrawlServer :=
  { id := 2, url := "http://s2", name := "s", slots := 2, token := "t2" }

/-- Task row of the first `dbC10` server. -/
def rowC10a : TaskResultRow :=
  { server := 1, website_id := 7, status_code := "200", file_count := 10,
    start_time := 0, end_time := 5, indexed_time := none }

/-- Task row of the second `dbC10` server. -/
def rowC10b : TaskResultRow :=
  { server := 2, website_id := 8, status_code := "200", file_count := 20,
    start_time := 0, end_time := 15, indexed_time := none }

/-- Witness for C10: both same-named servers of `dbC10` share the single
entry under `"s"`, which aggregates the joined results of both. -/
theorem stats_same_name_merged_witness :
    get_stats_by_server dbC10 "s" = some (mkStats (get_crawl_logs dbC10) "s") ∧
    (mkStats (get_crawl_logs dbC10) "s").task_count =
      ((get_crawl_logs dbC10).filter (fun r => r.server_name == "s")).length ∧
    mkTaskResult rowC10a "s" ∈
      (get_crawl_logs dbC10).filter (fun r => r.server_name == "s") ∧
    mkTaskResult rowC10b "s" ∈
      (get_crawl_logs dbC10).filter (fun r => r.server_name == "s") := by
  have h := stats_same_name_merged dbC10 srvC10a srvC10b (by decide) (by decide)
    (by decide) (by decide) rowC10a rowC10b (by decide) (by decide) (by decide)
    (by decide)
  exact ⟨h.1, h.2.2.1, h.2.2.2.2.1, h.2.2.2.2.2⟩
